import Mathlib

/-!
Shallow embedding of the client-side logic of the anishsinha.io blog:
the theme-state store and switch (DarkModeSwitch.tsx together with the
shared dark-mode atom), the inline bootstrap script in BaseHead.astro,
the WASM embed bridge (canvas context-menu and keydown listeners and
its visibility test), and the home-page index listing (collection sort
and render).
-/

/-- Combined client-side state relevant to theming: the shared dark-mode
boolean held by the atom, the data-theme attribute on the document root,
and the value persisted under the darkMode local-storage key (`none`
when the key is absent). -/
structure ThemeState where
  darkMode : Bool
  themeAttr : String
  storage : Option String
deriving DecidableEq, Repr

/-- The derived effect in DarkModeSwitch (the useMemo step keyed on the
dark-mode boolean): re-applies the data-theme attribute from the
boolean, dark when true and light when false. -/
def applyThemeEffect (s : ThemeState) : ThemeState :=
  { s with themeAttr := if s.darkMode then "dark" else "light" }

/-- Modelled from the spec: the setter of the shared dark-mode atom (the
file defining darkModeAtom is not in the snapshot). It updates the
in-memory boolean and persists the stringified boolean under the
darkMode key; when local-storage access is unavailable the write is
skipped and the failure is non-fatal. `ok` says whether storage access
succeeds. -/
def setDarkMode (ok : Bool) (v : Bool) (s : ThemeState) : ThemeState :=
  { s with
    darkMode := v
    storage := if ok then some (if v then "true" else "false") else s.storage }

/-- One complete toggle interaction on the switch: the onCheckedChange
handler in DarkModeSwitch first writes the flipped marker onto the
document root, then flips the atom through its setter; the re-render
that follows runs the derived effect, which re-applies the attribute
from the new boolean. -/
def toggle (ok : Bool) (s : ThemeState) : ThemeState :=
  let s1 := { s with themeAttr := if s.darkMode then "light" else "dark" }
  let s2 := setDarkMode ok (!s.darkMode) s1
  applyThemeEffect s2

/-- A sequence of toggle interactions, each with its own
storage-availability flag, applied left to right. -/
def toggleSeq (oks : List Bool) (s : ThemeState) : ThemeState :=
  oks.foldl (fun t ok => toggle ok t) s

/-- JS truthiness of the value returned by localStorage.getItem: null
and the empty string are falsy, every other string is truthy. -/
def truthyStr : Option String → Bool
  | none => false
  | some s => !(s == "")

/-- The inline astro:after-swap bootstrap script in BaseHead.astro:
reads the darkMode key and sets the data-theme attribute to dark
exactly when the stored value is truthy and equals the string "true";
otherwise it leaves the attribute as it was. -/
def afterSwapBootstrap (stored : Option String) (attr : String) : String :=
  if truthyStr stored && stored == some "true" then "dark" else attr

/-- A browser event, reduced to the one observable the embedding needs:
whether preventDefault has been called on it. -/
structure BrowserEvent where
  defaultPrevented : Bool
deriving DecidableEq, Repr

/-- The contextmenu listener registered on the canvas element in the
WASM embed script: it calls preventDefault on every event. -/
def contextmenuHandler (e : BrowserEvent) : BrowserEvent :=
  { e with defaultPrevented := true }

/-- A bounding client rect of an element, in CSS pixels relative to the
viewport origin, as returned by getBoundingClientRect. -/
structure Rect where
  top : Int
  left : Int
  bottom : Int
  right : Int
deriving DecidableEq, Repr

/-- isFullyVisible from the WASM embed script: the rect lies entirely
inside the viewport of the given width and height. -/
def isFullyVisible (r : Rect) (viewportWidth viewportHeight : Int) : Bool :=
  decide (0 ≤ r.top) && decide (0 ≤ r.left) &&
    decide (r.bottom ≤ viewportHeight) && decide (r.right ≤ viewportWidth)

/-- Whether the window keydown listener in the WASM embed script calls
preventDefault, as a function of the event code and the canvas rect and
viewport. The four arrow codes prevent the default only when the canvas
is fully visible; the Space case calls preventDefault unconditionally
and then falls through to the default break; every other code hits the
default case and is left alone. -/
def keydownPrevents (code : String) (r : Rect) (vw vh : Int) : Bool :=
  if code == "ArrowUp" || code == "ArrowDown" ||
      code == "ArrowLeft" || code == "ArrowRight" then
    isFullyVisible r vw vh
  else if code == "Space" then
    true
  else
    false

/-- A blog content entry as the index page uses it: title, slug, and
the millisecond value of its publish date (pubDate.valueOf()). -/
structure Post where
  title : String
  slug : String
  pubDate : Int
deriving DecidableEq, Repr

/-- The sort comparator on the home page:
(a, b) => b.data.pubDate.valueOf() - a.data.pubDate.valueOf(). -/
def postCompare (a b : Post) : Int := b.pubDate - a.pubDate

/-- The order in which Array.prototype.sort places a before b for the
comparator above: the comparator result is nonpositive. -/
def postLE (a b : Post) : Prop := postCompare a b ≤ 0

instance : DecidableRel postLE := fun a b =>
  inferInstanceAs (Decidable (postCompare a b ≤ 0))

instance : IsTotal Post postLE :=
  ⟨fun a b => by simp only [postLE, postCompare]; omega⟩

instance : IsTrans Post postLE :=
  ⟨fun a b c h1 h2 => by simp only [postLE, postCompare] at *; omega⟩

/-- The sorted posts list of the home page. Array.prototype.sort with a
consistent comparator is a stable comparison sort, so its output equals
that of stable insertion sort under the order induced by the
comparator. -/
def sortPosts (ps : List Post) : List Post :=
  List.insertionSort postLE ps

/-- One rendered entry of the home-page list: the link target built
from the slug, the displayed title, and the displayed date. -/
structure ListItem where
  href : String
  title : String
  dateMs : Int
deriving DecidableEq, Repr

/-- How posts.map renders one post into a list item on the home page. -/
def postListItem (p : Post) : ListItem :=
  { href := "/blog/" ++ p.slug ++ "/", title := p.title, dateMs := p.pubDate }

/-- The home-page index listing: the collection, sorted, mapped through
the list-item renderer. -/
def indexListing (ps : List Post) : List ListItem :=
  (sortPosts ps).map postListItem

/-- A two-post collection used to instantiate the sorting theorems. -/
def demoPosts : List Post :=
  [{ title := "old post", slug := "old", pubDate := 100 },
   { title := "new post", slug := "new", pubDate := 200 }]

/-- C1: after every toggle in any sequence of toggles, the data-theme
attribute equals dark exactly when the shared boolean is true. -/
theorem theme_attr_agrees_after_toggle
    (s : ThemeState) (oks : List Bool) (ok : Bool) :
    ((toggle ok (toggleSeq oks s)).themeAttr = "dark" ↔
      (toggle ok (toggleSeq oks s)).darkMode = true) := by
  cases h : (toggleSeq oks s).darkMode <;>
    simp [toggle, setDarkMode, applyThemeEffect, h]

/-- C2 counterexample: from the state with the boolean false, the
attribute light and no persisted value, toggling twice (with storage
available) does not return the combined state to its original value:
the storage slot ends up holding "false" instead of staying absent. -/
theorem toggle_twice_not_involutive_cex :
    toggle true (toggle true ⟨false, "light", none⟩) ≠
      (⟨false, "light", none⟩ : ThemeState) := by
  decide

/-- C2 amended: from a consistent starting state, one whose attribute
and persisted value both encode the boolean, toggling twice returns the
boolean, the attribute and the persisted value to their original
values. -/
theorem toggle_twice_id_of_consistent (s : ThemeState)
    (hAttr : s.themeAttr = if s.darkMode then "dark" else "light")
    (hStore : s.storage = some (if s.darkMode then "true" else "false")) :
    toggle true (toggle true s) = s := by
  cases s with
  | mk d a st =>
    cases d <;> simp_all [toggle, setDarkMode, applyThemeEffect]

/-- Witness for the amended C2 at a concrete consistent state. -/
theorem toggle_twice_id_of_consistent_witness :
    toggle true (toggle true ⟨true, "dark", some "true"⟩) =
      (⟨true, "dark", some "true"⟩ : ThemeState) :=
  toggle_twice_id_of_consistent ⟨true, "dark", some "true"⟩ rfl rfl

/-- C3 counterexample: with the canvas scrolled partly out of view (its
top above the viewport), a Space keydown still has its default
prevented, though the claim requires no prevention when the canvas is
not fully visible. -/
theorem space_prevented_when_offscreen_cex :
    keydownPrevents "Space" ⟨-10, 0, 50, 50⟩ 100 100 = true ∧
      isFullyVisible ⟨-10, 0, 50, 50⟩ 100 100 = false := by
  decide

/-- C3 amended: an arrow-key keydown has its default prevented exactly
when the canvas is fully visible, while a Space keydown always has its
default prevented regardless of visibility. -/
theorem arrow_keys_gated_space_always
    (code : String) (r : Rect) (vw vh : Int)
    (h : code = "ArrowUp" ∨ code = "ArrowDown" ∨
      code = "ArrowLeft" ∨ code = "ArrowRight") :
    keydownPrevents code r vw vh = isFullyVisible r vw vh ∧
      keydownPrevents "Space" r vw vh = true := by
  rcases h with h | h | h | h <;> subst h <;>
    simp [keydownPrevents]

/-- Witness for the amended C3 at a concrete arrow code and rect. -/
theorem arrow_keys_gated_space_always_witness :
    keydownPrevents "ArrowUp" ⟨0, 0, 50, 50⟩ 100 100 =
        isFullyVisible ⟨0, 0, 50, 50⟩ 100 100 ∧
      keydownPrevents "Space" ⟨0, 0, 50, 50⟩ 100 100 = true :=
  arrow_keys_gated_space_always "ArrowUp" ⟨0, 0, 50, 50⟩ 100 100
    (Or.inl rfl)

/-- C4: the bootstrap sets the attribute to dark when the stored value
is exactly the string "true", and leaves the attribute unchanged for
any other stored value, absent included. -/
theorem bootstrap_dark_iff_true (stored : Option String) (attr : String) :
    (stored = some "true" → afterSwapBootstrap stored attr = "dark") ∧
      (stored ≠ some "true" → afterSwapBootstrap stored attr = attr) := by
  constructor
  · intro h
    subst h
    rfl
  · intro h
    cases stored with
    | none => rfl
    | some v =>
      have hv : v ≠ "true" := fun hv => h (by rw [hv])
      simp [afterSwapBootstrap, truthyStr, hv]

/-- Witness for C4 at a stored "true" and at a stored "false". -/
theorem bootstrap_dark_iff_true_witness :
    afterSwapBootstrap (some "true") "light" = "dark" ∧
      afterSwapBootstrap (some "false") "light" = "light" :=
  ⟨(bootstrap_dark_iff_true (some "true") "light").1 rfl,
   (bootstrap_dark_iff_true (some "false") "light").2 (by decide)⟩

/-- C5: when local storage holds the darkMode key set to "true", the
bootstrap step that runs on page load leaves the document root with the
dark attribute, whatever the attribute was before, and this happens
before any user interaction. -/
theorem dark_attr_present_after_load (attr : String) :
    afterSwapBootstrap (some "true") attr = "dark" := rfl

/-- C6: in the sorted home-page listing, whenever the entry at position
j carries a strictly later publish date than the entry at position i,
position j comes before position i; so of two articles with dates
D1 < D2, the one with D2 is presented first. -/
theorem later_post_listed_first (ps : List Post) (i j : Nat) (a b : Post)
    (ha : (sortPosts ps)[i]? = some a) (hb : (sortPosts ps)[j]? = some b)
    (hab : a.pubDate < b.pubDate) : j < i := by
  rcases List.getElem?_eq_some_iff.mp ha with ⟨hi, hia⟩
  rcases List.getElem?_eq_some_iff.mp hb with ⟨hj, hjb⟩
  by_contra hji
  push_neg at hji
  rcases Nat.lt_or_ge i j with hij | hij
  · have hsorted : (sortPosts ps).Pairwise postLE :=
      List.sorted_insertionSort postLE ps
    have := List.pairwise_iff_getElem.mp hsorted i j hi hj hij
    rw [hia, hjb] at this
    simp only [postLE, postCompare] at this
    omega
  · have : i = j := Nat.le_antisymm hji hij
    subst this
    rw [hia] at hjb
    subst hjb
    omega

/-- Witness for C6 on the two-post demo collection: the newer post sits
at index 0 and the older at index 1, and the theorem instantiated there
yields 0 < 1. -/
theorem later_post_listed_first_witness :
    (sortPosts demoPosts)[1]? =
        some { title := "old post", slug := "old", pubDate := 100 } ∧
      (0 : Nat) < 1 :=
  ⟨by decide,
   later_post_listed_first demoPosts 1 0
     { title := "old post", slug := "old", pubDate := 100 }
     { title := "new post", slug := "new", pubDate := 200 }
     (by decide) (by decide) (by decide)⟩

/-- C7: right-clicking the canvas never opens the native context menu:
the contextmenu handler prevents the default on every event. -/
theorem contextmenu_always_prevented (e : BrowserEvent) :
    (contextmenuHandler e).defaultPrevented = true := rfl

/-- C8: when local-storage access fails, a toggle still flips the
in-memory boolean and writes the matching attribute onto the document
root; only the persisted value is left untouched. -/
theorem toggle_without_storage_updates_theme (s : ThemeState) :
    (toggle false s).darkMode = !s.darkMode ∧
      (toggle false s).themeAttr = (if !s.darkMode then "dark" else "light") ∧
      (toggle false s).storage = s.storage := by
  cases h : s.darkMode <;>
    simp [toggle, setDarkMode, applyThemeEffect, h]

/-- C9: a keydown whose code is none of the four arrow codes and not
Space reaches the default case of the switch and its default behavior
is never prevented. -/
theorem other_keys_not_prevented (code : String) (r : Rect) (vw vh : Int)
    (h1 : code ≠ "ArrowUp") (h2 : code ≠ "ArrowDown")
    (h3 : code ≠ "ArrowLeft") (h4 : code ≠ "ArrowRight")
    (h5 : code ≠ "Space") :
    keydownPrevents code r vw vh = false := by
  simp [keydownPrevents, h1, h2, h3, h4, h5]

/-- Witness for C9 at the concrete code KeyA. -/
theorem other_keys_not_prevented_witness :
    keydownPrevents "KeyA" ⟨0, 0, 50, 50⟩ 100 100 = false :=
  other_keys_not_prevented "KeyA" ⟨0, 0, 50, 50⟩ 100 100
    (by decide) (by decide) (by decide) (by decide) (by decide)

/-- C10: the home-page listing renders exactly the entries of the
collection, each once: the rendered listing is a permutation of the
collection rendered in its original order. -/
theorem index_listing_perm_of_collection (ps : List Post) :
    List.Perm (indexListing ps) (ps.map postListItem) :=
  (List.perm_insertionSort postLE ps).map postListItem
